import Mathlib

/-!
Shallow embedding of the langchain-rag repository's core logic:
the content validator, duplicate detector, scrape tracker, batched
Qdrant upload loop, the chat route's grounding check, and the RAG
service's collection switching.  Strings are modelled as lists of
characters; JavaScript's `toLowerCase`, `trim`, `includes` and
`substring` are modelled by the corresponding list operations.
-/

/-- JavaScript strings, modelled as lists of characters. -/
abbrev Str := List Char

/-- Whitespace characters removed by JavaScript's `String.prototype.trim`. -/
def isWhitespaceChar (c : Char) : Bool :=
  c = ' ' || c = '\t' || c = '\n' || c = '\r'

/-- JavaScript `s.trim()`: strip leading and trailing whitespace. -/
def trimStr (s : Str) : Str :=
  ((s.dropWhile isWhitespaceChar).reverse.dropWhile isWhitespaceChar).reverse

/-- JavaScript `s.toLowerCase()` (ASCII case mapping). -/
def toLowerStr (s : Str) : Str :=
  s.map Char.toLower

/-- JavaScript `hay.includes(needle)`: substring test. -/
def isSubstr (needle hay : Str) : Bool :=
  hay.tails.any (fun t => needle.isPrefixOf t)

/-- A LangChain `Document` as used by the scraper pipeline: page content
plus the metadata fields the validator inspects (`metadata.organization`,
`metadata.source`).  A `none` field models an absent (undefined) metadata
key; `some []` models an empty string (both are falsy in JavaScript). -/
structure Document where
  pageContent : Str
  organization : Option Str
  source : Option Str
deriving DecidableEq, Repr

/-- JavaScript truthiness of an optional string value. -/
def truthyStr : Option Str → Bool
  | none => false
  | some s => !s.isEmpty

/-- `ValidationResult` from `src/types/index.ts` (`score` is an `Int`
because the additive penalties can drive it negative). -/
structure ValidationResult where
  isValid : Bool
  issues : List Str
  score : Int
deriving DecidableEq, Repr

namespace ContentValidator

/-- The `medicalTerms` list from `ContentValidator.validateContent`. -/
def medicalTerms : List Str :=
  [ "menopause".data, "hormone".data, "estrogen".data, "perimenopause".data,
    "symptom".data, "treatment".data, "therapy".data, "health".data ]

/-- The `boilerplatePatterns` regexes from `ContentValidator.validateContent`;
each `/pat/i` is an (anywhere, case-insensitive) substring match, and
`/cookies?/i` matches exactly when "cookie" occurs as a substring. -/
def boilerplatePatterns : List Str :=
  [ "cookie".data, "privacy policy".data, "terms of service".data,
    "subscribe to newsletter".data, "follow us on".data ]

/-- `medicalTerms.some(term => doc.pageContent.toLowerCase().includes(term))`. -/
def hasMedicalTerms (doc : Document) : Bool :=
  medicalTerms.any (fun term => isSubstr term (toLowerStr doc.pageContent))

/-- `boilerplatePatterns.some(pattern => pattern.test(doc.pageContent))`. -/
def hasBoilerplate (doc : Document) : Bool :=
  boilerplatePatterns.any (fun pat => isSubstr pat (toLowerStr doc.pageContent))

/-- `ContentValidator.validateContent`: the score starts at 100 and each
failed check pushes an issue string and subtracts its penalty. -/
def validateContent (doc : Document) : ValidationResult :=
  let issues1 : List Str :=
    if doc.pageContent.length < 100 then [ "Content too short (< 100 chars)".data ] else []
  let score1 : Int :=
    if doc.pageContent.length < 100 then 100 - 30 else 100
  let issues2 : List Str :=
    if !hasMedicalTerms doc then
      issues1 ++ [ "No menopause-related medical terms found".data ] else issues1
  let score2 : Int :=
    if !hasMedicalTerms doc then score1 - 40 else score1
  let issues3 : List Str :=
    if hasBoilerplate doc ∧ doc.pageContent.length < 500 then
      issues2 ++ [ "Appears to be navigation/boilerplate content".data ] else issues2
  let score3 : Int :=
    if hasBoilerplate doc ∧ doc.pageContent.length < 500 then score2 - 50 else score2
  let issues4 : List Str :=
    if !truthyStr doc.organization then
      issues3 ++ [ "Missing organization metadata".data ] else issues3
  let score4 : Int :=
    if !truthyStr doc.organization then score3 - 20 else score3
  let issues5 : List Str :=
    if !truthyStr doc.source then issues4 ++ [ "Missing source URL".data ] else issues4
  let score5 : Int :=
    if !truthyStr doc.source then score4 - 20 else score4
  { isValid := decide (score5 ≥ 50), issues := issues5, score := score5 }

/-- `ContentValidator.filterValidDocuments`. -/
def filterValidDocuments (docs : List Document) : List Document :=
  docs.filter (fun doc => (validateContent doc).isValid)

/-- Spec-side restatement: the sum of the applicable independent penalties. -/
def penaltySum (doc : Document) : Int :=
  (if doc.pageContent.length < 100 then 30 else 0)
    + (if !hasMedicalTerms doc then 40 else 0)
    + (if hasBoilerplate doc ∧ doc.pageContent.length < 500 then 50 else 0)
    + (if !truthyStr doc.organization then 20 else 0)
    + (if !truthyStr doc.source then 20 else 0)

end ContentValidator

namespace DuplicateDetector

/-- The per-document fingerprint: `doc.pageContent.substring(0, 200).trim()`. -/
def fingerprint (doc : Document) : Str :=
  trimStr (doc.pageContent.take 200)

/-- The loop of `DuplicateDetector.removeDuplicates`, with the `seen`
set of fingerprints made explicit. -/
def removeDuplicatesAux (seen : List Str) : List Document → List Document
  | [] => []
  | doc :: docs =>
    if fingerprint doc ∈ seen then
      removeDuplicatesAux seen docs
    else
      doc :: removeDuplicatesAux (fingerprint doc :: seen) docs

/-- `DuplicateDetector.removeDuplicates`: keep the first document bearing
each fingerprint, starting from an empty seen-set. -/
def removeDuplicates (docs : List Document) : List Document :=
  removeDuplicatesAux [] docs

end DuplicateDetector

/-- `SourceConfig.metadata` from `src/types/index.ts`. -/
structure SourceMetadata where
  organization : Str
  category : Str
  credibilityHigh : Bool
  lastVerified : Str
deriving DecidableEq, Repr

/-- `SourceConfig` from `src/types/index.ts` (selectors omitted: the
tracker and orchestrator never read them). -/
structure SourceConfig where
  url : Str
  metadata : SourceMetadata
deriving DecidableEq, Repr

/-- One entry of `ScrapeTrackingData.lastScraped`. -/
structure LastScrapedEntry where
  timestamp : Str
  urlCount : Nat
  documentCount : Nat
deriving DecidableEq, Repr

/-- `ScrapeTrackingData` from `scrape-menopause-sources.ts`: both maps are
JavaScript objects keyed by collection name; a missing key is `none`. -/
structure ScrapeTrackingData where
  lastScraped : Str → Option LastScrapedEntry
  scrapedUrls : Str → Option (List Str)

/-- `[...new Set(l)]`: deduplicate preserving first-occurrence order,
with the set of already-seen elements explicit. -/
def dedupFirstAux (seen : List Str) : List Str → List Str
  | [] => []
  | x :: xs =>
    if x ∈ seen then dedupFirstAux seen xs
    else x :: dedupFirstAux (x :: seen) xs

/-- `[...new Set(l)]` on a list of URLs. -/
def dedupFirst (l : List Str) : List Str :=
  dedupFirstAux [] l

namespace ScrapeTracker

/-- `ScrapeTracker.getUnscrapedSources`: filter out the sources whose URL
is already in `scrapedUrls[collection]` (missing key read as `[]`). -/
def getUnscrapedSources (data : ScrapeTrackingData) (collection : Str)
    (sources : List SourceConfig) : List SourceConfig :=
  let scrapedUrls := (data.scrapedUrls collection).getD []
  sources.filter (fun source => !(decide (source.url ∈ scrapedUrls)))

/-- `ScrapeTracker.markAsScraped`: union the new URLs into
`scrapedUrls[collection]` (via `new Set`) and overwrite
`lastScraped[collection]`.  The wall-clock timestamp is passed in as `now`. -/
def markAsScraped (data : ScrapeTrackingData) (collection : Str)
    (sources : List SourceConfig) (documentCount : Nat) (now : Str) :
    ScrapeTrackingData :=
  let existing := (data.scrapedUrls collection).getD []
  let urls := sources.map (fun s => s.url)
  { scrapedUrls := fun c =>
      if c = collection then some (dedupFirst (existing ++ urls)) else data.scrapedUrls c,
    lastScraped := fun c =>
      if c = collection then
        some { timestamp := now, urlCount := urls.length, documentCount := documentCount }
      else data.lastScraped c }

/-- `ScrapeTracker.reset`: delete one collection's entries, or all of them. -/
def reset (data : ScrapeTrackingData) (collection : Option Str) : ScrapeTrackingData :=
  match collection with
  | some c =>
    { scrapedUrls := fun c2 => if c2 = c then none else data.scrapedUrls c2,
      lastScraped := fun c2 => if c2 = c then none else data.lastScraped c2 }
  | none => { scrapedUrls := fun _ => none, lastScraped := fun _ => none }

end ScrapeTracker

/-- `BATCH_SIZE` in `scrapeSources` of `scrape-menopause-sources.ts`. -/
def BATCH_SIZE : Nat := 100

/-- The batch-upload loop `for (let i = 0; i < allDocs.length; i += BATCH_SIZE)`:
iteration `j` uploads `allDocs.slice(j*BATCH_SIZE, (j+1)*BATCH_SIZE)`, creating
the collection (`QdrantVectorStore.fromDocuments`) exactly when `j = 0` and
appending (`vectorStore.addDocuments`) otherwise.  Each emitted pair is the
uploaded batch together with its creates-the-collection flag. -/
def storeBatchCalls (docs : List Document) : List (List Document × Bool) :=
  (List.range ((docs.length + BATCH_SIZE - 1) / BATCH_SIZE)).map
    (fun j => ((docs.drop (j * BATCH_SIZE)).take BATCH_SIZE, j == 0))

/-- The observable outcome of one `scrapeSources` run, starting from the
already-scraped document list: the store upserts actually performed, the
tracker state after the run, and normal versus erroneous termination. -/
structure IngestOutcome where
  upserts : List (List Document × Bool)
  tracker : ScrapeTrackingData
  result : Except Str Unit

/-- The validate → deduplicate → batch-store → mark-as-scraped tail of
`scrapeSources` in `scrape-menopause-sources.ts`.  `storeFailAt = some j`
models the Qdrant upsert of batch `j` throwing (the `catch` block rethrows
after logging, so the tracker is left untouched); `storeFailAt = none`
models every upsert succeeding.  An empty post-dedup list aborts the run
(`process.exit(1)`) before any store call. -/
def runIngestion (st : ScrapeTrackingData) (collectionName : Str)
    (sourcesToScrape : List SourceConfig) (scrapedDocs : List Document)
    (storeFailAt : Option Nat) (now : Str) : IngestOutcome :=
  let validDocs := ContentValidator.filterValidDocuments scrapedDocs
  let allDocs := DuplicateDetector.removeDuplicates validDocs
  if allDocs.isEmpty then
    { upserts := [], tracker := st,
      result := Except.error "No valid documents to store".data }
  else
    let batches := storeBatchCalls allDocs
    match storeFailAt with
    | some j =>
      if j < batches.length then
        { upserts := batches.take j, tracker := st,
          result := Except.error "Failed to store in Qdrant".data }
      else
        { upserts := batches,
          tracker := ScrapeTracker.markAsScraped st collectionName sourcesToScrape
            allDocs.length now,
          result := Except.ok () }
    | none =>
      { upserts := batches,
        tracker := ScrapeTracker.markAsScraped st collectionName sourcesToScrape
          allDocs.length now,
        result := Except.ok () }

/-- The `cannotAnswerPhrases` list from the `/api/chat/query` and
`/api/chat/query/stream` handlers in `src/routes/chat.ts`. -/
def cannotAnswerPhrases : List Str :=
  [ "doesn\x27t contain".data, "don\x27t contain".data,
    "not provided in the context".data, "not found in the context".data,
    "context does not".data, "no information".data, "cannot answer".data,
    "can\x27t answer".data, "unable to answer".data,
    "not addressed in the provided".data, "not covered in the context".data ]

/-- `!cannotAnswerPhrases.some(phrase => answerLower.includes(phrase))`
with `answerLower = answer.toLowerCase()`. -/
def isAnsweredFromContext (answer : Str) : Bool :=
  !(cannotAnswerPhrases.any (fun phrase => isSubstr phrase (toLowerStr answer)))

/-- `const sources = isAnsweredFromContext ? await ragService.getRelevantDocuments(...) : []`:
the sources array handed back to the caller, given the retrieved documents. -/
def responseSources (answer : Str) (retrieved : List Document) : List Document :=
  if isAnsweredFromContext answer then retrieved else []

/-- `CollectionType` from `src/services/rag.ts`. -/
inductive CollectionType where
  | menopause
  | breast_cancer
deriving DecidableEq, Repr

/-- The `COLLECTION_NAMES` mapping from `src/services/rag.ts`. -/
def COLLECTION_NAMES : CollectionType → Str
  | CollectionType.menopause => "menopause_knowledge".data
  | CollectionType.breast_cancer => "breast_cancer_knowledge".data

/-- The `CollectionType` value as the string interpolated into error text. -/
def collectionKey : CollectionType → Str
  | CollectionType.menopause => "menopause".data
  | CollectionType.breast_cancer => "breast_cancer".data

/-- The message of the typed error thrown when connecting to a collection
fails: `Collection '...' not found or unavailable`. -/
def collectionUnavailableError (c : CollectionType) : Str :=
  "Collection \x27".data ++ collectionKey c ++ "\x27 not found or unavailable".data

/-- The mutable state of `RAGService`: the per-collection connection cache
(a cached vector store is identified by the Qdrant collection it wraps)
and the currently active collection. -/
structure RAGState where
  vectorStoreCache : CollectionType → Option Str
  currentCollection : CollectionType

namespace RAGService

/-- `RAGService.switchCollection`.  `partitionExists` tells which Qdrant
collections exist, so `QdrantVectorStore.fromExistingCollection` succeeds
exactly when `partitionExists (COLLECTION_NAMES c)`; on failure the catch
block rethrows the typed unavailable error and, since both assignments sit
after the awaited connection, the service state is returned unchanged. -/
def switchCollection (partitionExists : Str → Bool) (st : RAGState)
    (collection : CollectionType) : RAGState × Except Str Unit :=
  if st.currentCollection = collection ∧ (st.vectorStoreCache collection).isSome then
    (st, Except.ok ())
  else if (st.vectorStoreCache collection).isSome then
    ({ st with currentCollection := collection }, Except.ok ())
  else if partitionExists (COLLECTION_NAMES collection) then
    ({ vectorStoreCache := fun c =>
         if c = collection then some (COLLECTION_NAMES collection)
         else st.vectorStoreCache c,
       currentCollection := collection }, Except.ok ())
  else
    (st, Except.error (collectionUnavailableError collection))

end RAGService

/-! ## Concrete inputs used by witnesses -/

/-- A 50-character chunk with no topic keyword, no boilerplate, no
organization and no source metadata. -/
def exampleShortDoc : Document :=
  { pageContent := List.replicate 50 'x', organization := none, source := none }

/-- A tracker state with no entries (fresh `.scrape-tracking.json`). -/
def emptyTracking : ScrapeTrackingData :=
  { lastScraped := fun _ => none, scrapedUrls := fun _ => none }

/-- A sample configured source. -/
def sampleSource : SourceConfig :=
  { url := "https://www.menopause.org/for-women".data,
    metadata :=
      { organization := "The Menopause Society".data,
        category := "overview".data,
        credibilityHigh := true,
        lastVerified := "2024-01".data } }

/-- A second sample source with a distinct URL. -/
def sampleSource2 : SourceConfig :=
  { url := "https://www.acog.org/womens-health".data,
    metadata :=
      { organization := "ACOG".data,
        category := "overview".data,
        credibilityHigh := true,
        lastVerified := "2024-01".data } }

/-- The `j`-th witness document: a distinct digit prefix, a topic keyword
and enough padding to pass every validation check, all within the
200-character fingerprint window. -/
def witnessDoc (j : Nat) : Document :=
  { pageContent := Nat.toDigits 10 j ++ " menopause ".data ++ List.replicate 90 'a',
    organization := some "ACOG".data,
    source := some "https://www.acog.org/womens-health".data }

/-- 250 pairwise-distinct valid documents. -/
def witnessDocs : List Document :=
  (List.range 250).map witnessDoc

/-- A service state with no cached connections. -/
def emptyRAGState : RAGState :=
  { vectorStoreCache := fun _ => none,
    currentCollection := CollectionType.menopause }

/-- A service state with the menopause connection cached and active. -/
def menopauseCachedState : RAGState :=
  { vectorStoreCache := fun c =>
      if c = CollectionType.menopause then
        some (COLLECTION_NAMES CollectionType.menopause)
      else none,
    currentCollection := CollectionType.menopause }

/-! ## Theorems -/

section DedupLemmas

open DuplicateDetector

theorem removeDuplicatesAux_length_le (seen : List Str) (ds : List Document) :
    (removeDuplicatesAux seen ds).length ≤ ds.length := by
  induction ds generalizing seen with
  | nil => simp [removeDuplicatesAux]
  | cons d ds ih =>
    simp only [removeDuplicatesAux]
    by_cases hfp : fingerprint d ∈ seen
    · rw [if_pos hfp]
      exact Nat.le_succ_of_le (ih seen)
    · rw [if_neg hfp]
      simpa using Nat.succ_le_succ (ih _)

theorem fingerprint_not_seen_of_mem_removeDuplicatesAux (seen : List Str)
    (ds : List Document) (d : Document) (hd : d ∈ removeDuplicatesAux seen ds) :
    fingerprint d ∉ seen := by
  induction ds generalizing seen with
  | nil => simp [removeDuplicatesAux] at hd
  | cons e es ih =>
    simp only [removeDuplicatesAux] at hd
    by_cases hfp : fingerprint e ∈ seen
    · rw [if_pos hfp] at hd
      exact ih seen hd
    · rw [if_neg hfp] at hd
      rcases List.mem_cons.mp hd with h | h
      · subst h
        exact hfp
      · have hne := ih (fingerprint e :: seen) h
        intro hc
        exact hne (List.mem_cons_of_mem _ hc)

theorem removeDuplicatesAux_pairwise (seen : List Str) (ds : List Document) :
    (removeDuplicatesAux seen ds).Pairwise
      (fun a b => fingerprint a ≠ fingerprint b) := by
  induction ds generalizing seen with
  | nil => simp [removeDuplicatesAux]
  | cons e es ih =>
    simp only [removeDuplicatesAux]
    by_cases hfp : fingerprint e ∈ seen
    · rw [if_pos hfp]
      exact ih seen
    · rw [if_neg hfp]
      refine List.Pairwise.cons ?_ (ih _)
      intro d hd hc
      have hne := fingerprint_not_seen_of_mem_removeDuplicatesAux _ _ _ hd
      exact hne (by rw [← hc]; exact List.mem_cons_self _ _)

theorem removeDuplicatesAux_find_first (seen : List Str) (ds : List Document)
    (d : Document) (hd : d ∈ removeDuplicatesAux seen ds) :
    ds.find? (fun e => fingerprint e == fingerprint d) = some d := by
  induction ds generalizing seen with
  | nil => simp [removeDuplicatesAux] at hd
  | cons e es ih =>
    simp only [removeDuplicatesAux] at hd
    by_cases hfp : fingerprint e ∈ seen
    · rw [if_pos hfp] at hd
      have hnotin := fingerprint_not_seen_of_mem_removeDuplicatesAux seen es d hd
      have hne : fingerprint e ≠ fingerprint d := fun hc => hnotin (hc ▸ hfp)
      rw [List.find?_cons_of_neg _ (by simpa using hne)]
      exact ih seen hd
    · rw [if_neg hfp] at hd
      rcases List.mem_cons.mp hd with h | h
      · subst h
        rw [List.find?_cons_of_pos _ (by simp)]
      · have hnotin := fingerprint_not_seen_of_mem_removeDuplicatesAux _ _ _ h
        have hne : fingerprint e ≠ fingerprint d := fun hc =>
          hnotin (hc ▸ List.mem_cons_self _ _)
        rw [List.find?_cons_of_neg _ (by simpa using hne)]
        exact ih _ h

theorem removeDuplicatesAux_sublist (seen : List Str) (ds : List Document) :
    (removeDuplicatesAux seen ds).Sublist ds := by
  induction ds generalizing seen with
  | nil => simp [removeDuplicatesAux]
  | cons e es ih =>
    simp only [removeDuplicatesAux]
    by_cases hfp : fingerprint e ∈ seen
    · rw [if_pos hfp]
      exact (ih seen).cons e
    · rw [if_neg hfp]
      exact (ih _).cons₂ e

end DedupLemmas

/-- Claim C3: for every list of chunks, `removeDuplicates` returns a list
whose size is at most the input size, in which no two retained chunks have
an identical fingerprint (the first 200 characters of content, trimmed),
and for each fingerprint the retained chunk is the first occurrence of
that fingerprint in the input. -/
theorem removeDuplicates_first_occurrence_spec (docs : List Document) :
    (DuplicateDetector.removeDuplicates docs).length ≤ docs.length ∧
    (DuplicateDetector.removeDuplicates docs).Pairwise
      (fun a b => DuplicateDetector.fingerprint a ≠ DuplicateDetector.fingerprint b) ∧
    (∀ d ∈ DuplicateDetector.removeDuplicates docs,
      docs.find?
        (fun e => DuplicateDetector.fingerprint e == DuplicateDetector.fingerprint d)
        = some d) :=
  ⟨removeDuplicatesAux_length_le [] docs,
   removeDuplicatesAux_pairwise [] docs,
   fun d hd => removeDuplicatesAux_find_first [] docs d hd⟩

/-- Claim C9: the output of `removeDuplicates` is a subsequence of the
input (retained chunks keep their relative order), and every retained
chunk is an unmodified element of the input list. -/
theorem removeDuplicates_sublist_spec (docs : List Document) :
    (DuplicateDetector.removeDuplicates docs).Sublist docs ∧
    (∀ d ∈ DuplicateDetector.removeDuplicates docs, d ∈ docs) :=
  ⟨removeDuplicatesAux_sublist [] docs,
   fun _ hd => (removeDuplicatesAux_sublist [] docs).mem hd⟩

/-- Claim C2: `validate` returns `score = 100` minus the sum of the
applicable independent penalties (short content −30, no topic keyword −40,
boilerplate on content under 500 characters −50, missing organization −20,
missing source −20), `isValid` holds iff `score ≥ 50`, and the
50-character keyword-free chunk with no organization and no source scores
`100 − 30 − 40 − 20 − 20 = −10` and is invalid. -/
theorem validateContent_score_spec (doc : Document) :
    ((ContentValidator.validateContent doc).score
        = 100 - ContentValidator.penaltySum doc) ∧
    ((ContentValidator.validateContent doc).isValid = true
        ↔ (ContentValidator.validateContent doc).score ≥ 50) ∧
    (ContentValidator.validateContent exampleShortDoc).score = -10 ∧
    (ContentValidator.validateContent exampleShortDoc).isValid = false := by
  refine ⟨?_, ?_, by decide, by decide⟩
  · simp only [ContentValidator.validateContent, ContentValidator.penaltySum]
    split_ifs <;> norm_num
  · simp only [ContentValidator.validateContent]
    exact decide_eq_true_iff

theorem mem_dedupFirstAux (l : List Str) :
    ∀ (seen : List Str) (a : Str), a ∈ l → a ∉ seen → a ∈ dedupFirstAux seen l := by
  induction l with
  | nil => intro seen a ha _; simp at ha
  | cons x xs ih =>
    intro seen a ha hs
    simp only [dedupFirstAux]
    by_cases hx : x ∈ seen
    · rw [if_pos hx]
      rcases List.mem_cons.mp ha with h | h
      · exact absurd (h ▸ hx) hs
      · exact ih seen a h hs
    · rw [if_neg hx]
      by_cases hax : a = x
      · exact hax ▸ List.mem_cons_self _ _
      · rcases List.mem_cons.mp ha with h | h
        · exact absurd h hax
        · refine List.mem_cons_of_mem _ (ih (x :: seen) a h ?_)
          intro hc
          rcases List.mem_cons.mp hc with h2 | h2
          · exact hax h2
          · exact hs h2

theorem mem_dedupFirst (l : List Str) (a : Str) (ha : a ∈ l) : a ∈ dedupFirst l :=
  mem_dedupFirstAux l [] a ha (List.not_mem_nil a)

/-- Claim C4: after `markAsScraped(collection, sources, n)`,
`getUnscrapedSources(collection, sources)` is empty, and more generally
every source whose URL was in the marked list is excluded from
`getUnscrapedSources` for that collection. -/
theorem markAsScraped_roundtrip_spec (st : ScrapeTrackingData) (collection : Str)
    (sources : List SourceConfig) (n : Nat) (now : Str) :
    (ScrapeTracker.getUnscrapedSources
        (ScrapeTracker.markAsScraped st collection sources n now) collection sources
      = []) ∧
    (∀ (sources2 : List SourceConfig) (s : SourceConfig),
      s ∈ ScrapeTracker.getUnscrapedSources
            (ScrapeTracker.markAsScraped st collection sources n now) collection sources2 →
      s.url ∉ sources.map (fun x => x.url)) := by
  have hmem : ∀ s ∈ sources, s.url ∈
      ((ScrapeTracker.markAsScraped st collection sources n now).scrapedUrls
        collection).getD [] := by
    intro s hs
    simp only [ScrapeTracker.markAsScraped, if_pos rfl, Option.getD_some]
    exact mem_dedupFirst _ _
      (List.mem_append_right _ (List.mem_map_of_mem (fun x => x.url) hs))
  constructor
  · refine List.filter_eq_nil_iff.mpr ?_
    intro s hs
    simp [hmem s hs]
  · intro sources2 s hs hurl
    have hfilter := List.mem_filter.mp hs
    simp only [ScrapeTracker.markAsScraped, if_pos rfl, Option.getD_some] at hfilter
    have hin : s.url ∈ dedupFirst ((st.scrapedUrls collection).getD []
        ++ List.map (fun s => s.url) sources) :=
      mem_dedupFirst _ _ (List.mem_append_right _ hurl)
    simp [hin] at hfilter

/-- Claim C10: a collection with no tracking entry (never scraped, or
cleared by `reset`) yields the full input source list from
`getUnscrapedSources`; a missing `scrapedUrls` key is read as the empty
set rather than raising an error. -/
theorem getUnscrapedSources_no_entry_spec (st : ScrapeTrackingData)
    (collection : Str) (sources : List SourceConfig) :
    (st.scrapedUrls collection = none →
      ScrapeTracker.getUnscrapedSources st collection sources = sources) ∧
    ScrapeTracker.getUnscrapedSources
      (ScrapeTracker.reset st (some collection)) collection sources = sources := by
  constructor
  · intro h
    simp [ScrapeTracker.getUnscrapedSources, h]
  · simp [ScrapeTracker.getUnscrapedSources, ScrapeTracker.reset]

theorem getUnscrapedSources_no_entry_witness :
    ScrapeTracker.getUnscrapedSources emptyTracking
      "menopause_knowledge".data [sampleSource, sampleSource2]
      = [sampleSource, sampleSource2] :=
  (getUnscrapedSources_no_entry_spec emptyTracking
    "menopause_knowledge".data [sampleSource, sampleSource2]).1 rfl

theorem markAsScraped_roundtrip_witness :
    (ScrapeTracker.getUnscrapedSources
        (ScrapeTracker.markAsScraped emptyTracking "menopause_knowledge".data
          [sampleSource] 3 "2025-01-01".data)
        "menopause_knowledge".data [sampleSource] = []) ∧
    sampleSource2.url ∉ [sampleSource].map (fun x => x.url) :=
  ⟨(markAsScraped_roundtrip_spec emptyTracking "menopause_knowledge".data
      [sampleSource] 3 "2025-01-01".data).1,
   (markAsScraped_roundtrip_spec emptyTracking "menopause_knowledge".data
      [sampleSource] 3 "2025-01-01".data).2 [sampleSource2] sampleSource2
      (by decide)⟩

theorem storeBatchCalls_250 (docs : List Document) (h : docs.length = 250) :
    ((storeBatchCalls docs).map (fun b => b.1.length) = [100, 100, 50]) ∧
    ((storeBatchCalls docs).map (fun b => b.2) = [true, false, false]) := by
  have h3 : (docs.length + BATCH_SIZE - 1) / BATCH_SIZE = 3 := by rw [h]; rfl
  have hr : List.range 3 = [0, 1, 2] := rfl
  constructor <;>
    simp [storeBatchCalls, h3, hr, List.length_take, List.length_drop, h, BATCH_SIZE]

/-- Claim C5: with 250 chunks surviving validation and deduplication and
the default batch size of 100, the orchestrator performs exactly 3 upsert
calls of sizes 100, 100, 50 in that order, and only the first call may
create the collection (all later calls append). -/
theorem ingestion_batches_250_spec (st : ScrapeTrackingData) (collectionName : Str)
    (sources : List SourceConfig) (scraped : List Document) (now : Str)
    (h : (DuplicateDetector.removeDuplicates
            (ContentValidator.filterValidDocuments scraped)).length = 250) :
    ((runIngestion st collectionName sources scraped none now).upserts.map
        (fun b => b.1.length) = [100, 100, 50]) ∧
    ((runIngestion st collectionName sources scraped none now).upserts.map
        (fun b => b.2) = [true, false, false]) := by
  have hup : (runIngestion st collectionName sources scraped none now).upserts
      = storeBatchCalls (DuplicateDetector.removeDuplicates
          (ContentValidator.filterValidDocuments scraped)) := by
    have hne : (DuplicateDetector.removeDuplicates
        (ContentValidator.filterValidDocuments scraped)).isEmpty = false := by
      cases hAll : DuplicateDetector.removeDuplicates
          (ContentValidator.filterValidDocuments scraped) with
      | nil => rw [hAll] at h; simp at h
      | cons a as => rfl
    simp [runIngestion, hne]
  rw [hup]
  exact storeBatchCalls_250 _ h

set_option maxRecDepth 100000 in
set_option maxHeartbeats 4000000 in
theorem ingestion_batches_250_witness :
    ((runIngestion emptyTracking "menopause_knowledge".data [] witnessDocs none
        "2025-01-01".data).upserts.map (fun b => b.1.length) = [100, 100, 50]) ∧
    ((runIngestion emptyTracking "menopause_knowledge".data [] witnessDocs none
        "2025-01-01".data).upserts.map (fun b => b.2) = [true, false, false]) :=
  ingestion_batches_250_spec emptyTracking "menopause_knowledge".data [] witnessDocs
    "2025-01-01".data (by decide)

/-- Claim C6: when nothing survives validation and deduplication, the run
fails with an explicit error, performs no upsert call, and leaves the
tracker state unchanged. -/
theorem ingestion_empty_aborts_spec (st : ScrapeTrackingData) (collectionName : Str)
    (sources : List SourceConfig) (scraped : List Document)
    (storeFailAt : Option Nat) (now : Str)
    (h : DuplicateDetector.removeDuplicates
          (ContentValidator.filterValidDocuments scraped) = []) :
    ((runIngestion st collectionName sources scraped storeFailAt now).upserts = []) ∧
    ((runIngestion st collectionName sources scraped storeFailAt now).tracker = st) ∧
    ((runIngestion st collectionName sources scraped storeFailAt now).result
      = Except.error "No valid documents to store".data) := by
  simp [runIngestion, h]

theorem ingestion_empty_aborts_witness :
    ((runIngestion emptyTracking "menopause_knowledge".data [sampleSource] [] none
        "2025-01-01".data).upserts = []) ∧
    ((runIngestion emptyTracking "menopause_knowledge".data [sampleSource] [] none
        "2025-01-01".data).tracker = emptyTracking) ∧
    ((runIngestion emptyTracking "menopause_knowledge".data [sampleSource] [] none
        "2025-01-01".data).result
      = Except.error "No valid documents to store".data) :=
  ingestion_empty_aborts_spec emptyTracking "menopause_knowledge".data
    [sampleSource] [] none "2025-01-01".data rfl

/-- Claim C7: when any batch upsert to the vector store fails,
`markAsScraped` is never called (the tracker is unchanged by the run) and
the error is rethrown to the caller. -/
theorem ingestion_store_failure_spec (st : ScrapeTrackingData) (collectionName : Str)
    (sources : List SourceConfig) (scraped : List Document) (j : Nat) (now : Str)
    (h : j < (storeBatchCalls (DuplicateDetector.removeDuplicates
          (ContentValidator.filterValidDocuments scraped))).length) :
    ((runIngestion st collectionName sources scraped (some j) now).tracker = st) ∧
    (∃ msg, (runIngestion st collectionName sources scraped (some j) now).result
      = Except.error msg) := by
  by_cases hne : (DuplicateDetector.removeDuplicates
      (ContentValidator.filterValidDocuments scraped)).isEmpty
  · refine ⟨?_, "No valid documents to store".data, ?_⟩ <;> simp [runIngestion, hne]
  · simp only [Bool.not_eq_true] at hne
    refine ⟨?_, "Failed to store in Qdrant".data, ?_⟩ <;> simp [runIngestion, hne, h]

theorem ingestion_store_failure_witness :
    ((runIngestion emptyTracking "menopause_knowledge".data [sampleSource]
        [witnessDoc 0] (some 0) "2025-01-01".data).tracker = emptyTracking) ∧
    (∃ msg, (runIngestion emptyTracking "menopause_knowledge".data [sampleSource]
        [witnessDoc 0] (some 0) "2025-01-01".data).result = Except.error msg) :=
  ingestion_store_failure_spec emptyTracking "menopause_knowledge".data
    [sampleSource] [witnessDoc 0] 0 "2025-01-01".data (by decide)

/-- Claim C1: if the lowercased generated answer contains any phrase from
the fixed cannot-answer list (in particular the substring
"not found in the context", matched case-insensitively), the response is
classified as not grounded and the sources array returned to the caller is
empty; otherwise the retrieved sources are returned. -/
theorem grounding_suppresses_sources_spec (answer : Str) (retrieved : List Document) :
    ((∃ p ∈ cannotAnswerPhrases, isSubstr p (toLowerStr answer) = true) →
      responseSources answer retrieved = []) ∧
    ((∀ p ∈ cannotAnswerPhrases, isSubstr p (toLowerStr answer) = false) →
      responseSources answer retrieved = retrieved) ∧
    (isSubstr "not found in the context".data (toLowerStr answer) = true →
      responseSources answer retrieved = []) := by
  have h1 : (∃ p ∈ cannotAnswerPhrases, isSubstr p (toLowerStr answer) = true) →
      responseSources answer retrieved = [] := by
    rintro ⟨p, hp, hsub⟩
    have hfalse : isAnsweredFromContext answer = false := by
      simp only [isAnsweredFromContext, Bool.not_eq_false']
      exact List.any_eq_true.mpr ⟨p, hp, hsub⟩
    simp [responseSources, hfalse]
  refine ⟨h1, ?_, ?_⟩
  · intro hall
    have hany : cannotAnswerPhrases.any
        (fun phrase => isSubstr phrase (toLowerStr answer)) = false := by
      refine List.any_eq_false.mpr ?_
      intro p hp
      simp [hall p hp]
    simp [responseSources, isAnsweredFromContext, hany]
  · intro hsub
    exact h1 ⟨ "not found in the context".data, by decide, hsub⟩

theorem grounding_suppresses_sources_witness :
    (responseSources "This is Not Found in the Context.".data [witnessDoc 0] = []) ∧
    (responseSources "Estrogen therapy helps with symptoms. [1]".data [witnessDoc 0]
      = [witnessDoc 0]) :=
  ⟨(grounding_suppresses_sources_spec "This is Not Found in the Context.".data
      [witnessDoc 0]).2.2 (by decide),
   (grounding_suppresses_sources_spec "Estrogen therapy helps with symptoms. [1]".data
      [witnessDoc 0]).2.1 (by decide)⟩

/-- Claim C8: `switchCollection` on a collection whose backing partition
does not exist (and is not cached) fails with the typed
collection-unavailable error and leaves the service state, in particular
the currently active collection, unchanged; when the requested collection
is already active and cached, it is a no-op. -/
theorem switchCollection_spec (partitionExists : Str → Bool) (st : RAGState)
    (collection : CollectionType) :
    ((st.vectorStoreCache collection = none) →
      (partitionExists (COLLECTION_NAMES collection) = false) →
      RAGService.switchCollection partitionExists st collection
        = (st, Except.error (collectionUnavailableError collection))) ∧
    ((st.currentCollection = collection) →
      ((st.vectorStoreCache collection).isSome = true) →
      RAGService.switchCollection partitionExists st collection
        = (st, Except.ok ())) := by
  constructor
  · intro hcache henv
    simp [RAGService.switchCollection, hcache, henv]
  · intro hcur hsome
    simp [RAGService.switchCollection, hcur, hsome]

theorem switchCollection_witness :
    (RAGService.switchCollection (fun _ => false) emptyRAGState
        CollectionType.breast_cancer
      = (emptyRAGState,
          Except.error (collectionUnavailableError CollectionType.breast_cancer))) ∧
    (RAGService.switchCollection (fun _ => false) menopauseCachedState
        CollectionType.menopause
      = (menopauseCachedState, Except.ok ())) :=
  ⟨(switchCollection_spec (fun _ => false) emptyRAGState
      CollectionType.breast_cancer).1 rfl rfl,
   (switchCollection_spec (fun _ => false) menopauseCachedState
      CollectionType.menopause).2 rfl rfl⟩

theorem removeDuplicates_first_occurrence_witness :
    ((DuplicateDetector.removeDuplicates
        [witnessDoc 0, witnessDoc 0, witnessDoc 1]).length
      ≤ ([witnessDoc 0, witnessDoc 0, witnessDoc 1] : List Document).length) ∧
    (([witnessDoc 0, witnessDoc 0, witnessDoc 1] : List Document).find?
        (fun e => DuplicateDetector.fingerprint e
          == DuplicateDetector.fingerprint (witnessDoc 1))
      = some (witnessDoc 1)) :=
  ⟨(removeDuplicates_first_occurrence_spec
      [witnessDoc 0, witnessDoc 0, witnessDoc 1]).1,
   (removeDuplicates_first_occurrence_spec
      [witnessDoc 0, witnessDoc 0, witnessDoc 1]).2.2 (witnessDoc 1) (by decide)⟩

theorem removeDuplicates_sublist_witness :
    ((DuplicateDetector.removeDuplicates
        [witnessDoc 0, witnessDoc 0, witnessDoc 1]).Sublist
      [witnessDoc 0, witnessDoc 0, witnessDoc 1]) ∧
    witnessDoc 1 ∈ ([witnessDoc 0, witnessDoc 0, witnessDoc 1] : List Document) :=
  ⟨(removeDuplicates_sublist_spec [witnessDoc 0, witnessDoc 0, witnessDoc 1]).1,
   (removeDuplicates_sublist_spec [witnessDoc 0, witnessDoc 0, witnessDoc 1]).2
      (witnessDoc 1) (by decide)⟩
